import Mathlib

/-!
# Moonlight Wii U: the session orchestrator of `src/main.c`

A shallow embedding of `main.c`: the two helpers `get_app_id` and `stream`,
the start-up code that selects the initial session state, and the body of the
`switch (state)` dispatch of the main loop, one iteration at a time.

Conventions of the embedding.

* `int` values are `Int`; where the source computes on them the result is
  wrapped to 32-bit two's complement by `wrap32`.  `uint32_t` is `Nat`.
* C strings are `String`s (the characters before the terminating NUL), their
  bytes being the UTF-8 bytes; a `char *` that may be `NULL` is an
  `Option String`.
* `message_buffer` is an array of 1024 bytes.  A `sprintf` into it whose
  format has a `%s` can write past its end; `sprintf_message_buffer` models
  that write.  The other texts written to it are fixed or hold one `%d` of an
  `int`, at most 36 bytes, and are assigned directly.
* Every call that leaves `main.c` is recorded, in program order, in the
  `trace` of the machine.  What such a call returns, and what it writes
  through a pointer argument, is not determined by `main.c`: it is supplied
  by an `Inputs` record (one per loop iteration) or a `Startup` record.
* Constants that come from headers outside `main.c` are the fields of
  `Headers`.
-/

namespace Moonlight

/-! ## Machine integers and C library helpers -/

/-- Wrap an integer to the range of a 32-bit two's complement `int`. -/
def wrap32 (x : Int) : Int := (x + 2147483648) % 4294967296 - 2147483648

/-- The conversion `(unsigned)x` of a C integer to a 32-bit unsigned value. -/
def to_unsigned (x : Int) : Int := x % 4294967296

/-- The `%d` conversion of `printf`. -/
def fmt_d (x : Int) : String := toString x

/-- The `%x` conversion of `printf` (argument read as `unsigned int`). -/
def fmt_x (x : Int) : String := String.mk (Nat.toDigits 16 (to_unsigned x).toNat)

/-- Character-wise comparison behind `strcmp`: negative, zero or positive. -/
def strcmp_chars : List Char → List Char → Int
  | [], [] => 0
  | [], _ :: _ => -1
  | _ :: _, [] => 1
  | a :: as, b :: bs =>
    if a = b then strcmp_chars as bs else if a.toNat < b.toNat then -1 else 1

/-- The C library `strcmp`; only the sign of its result is specified. -/
def strcmp (s t : String) : Int := strcmp_chars s.data t.data

/-! ## Constants and types declared outside `main.c` -/

/-- Constants of the headers `main.c` includes (`errors.h`, `vpad/input.h`,
`Limelight.h`, the build's `VERSION_STRING` and `DEBUG`). -/
structure Headers where
  GS_OK : Int
  GS_OUT_OF_MEMORY : Int
  GS_ERROR : Int
  GS_INVALID : Int
  GS_UNSUPPORTED_VERSION : Int
  GS_BAD_CONF : Int
  GS_NOT_SUPPORTED_4K : Int
  GS_NOT_SUPPORTED_MODE : Int
  GS_NOT_SUPPORTED_SOPS_RESOLUTION : Int
  VPAD_BUTTON_A : Nat
  VPAD_BUTTON_B : Nat
  VPAD_BUTTON_X : Nat
  VPAD_BUTTON_UP : Nat
  VPAD_BUTTON_DOWN : Nat
  VIDEO_FORMAT_H264 : Int
  VERSION_STRING : String
  DEBUG : Bool

/-- The values of `int state` (`STATE_*` of `wiiu/wiiu.h`). -/
inductive State
  | STATE_INVALID
  | STATE_DISCONNECTED
  | STATE_CONNECTING
  | STATE_CONNECTED
  | STATE_PAIRING
  | STATE_START_STREAM
  | STATE_STREAMING
  | STATE_STOP_STREAM
  deriving DecidableEq, Repr

open State

/-- One node of the host's application list (`PAPP_LIST`); the list itself is
a `List APP_LIST` in `next` order. -/
structure APP_LIST where
  name : String
  id : Int
  deriving DecidableEq, Repr

/-- The fields of `STREAM_CONFIGURATION` that `main.c` reads or writes. -/
structure STREAM_CONFIGURATION where
  width : Int
  height : Int
  fps : Int
  bitrate : Int
  supportedVideoFormats : Int
  deriving DecidableEq, Repr

/-- The fields of `CONFIGURATION` that `main.c` reads or writes. -/
structure CONFIGURATION where
  stream : STREAM_CONFIGURATION
  debug_level : Int
  app : String
  address : List (Option String)
  addressCount : Int
  unsupported : Bool
  sops : Bool
  localaudio : Bool
  quitappafter : Bool
  deriving DecidableEq, Repr

/-- The fields of `SERVER_INFORMATION` that `main.c` reads. -/
structure SERVER_INFORMATION where
  serverInfoGfeVersion : String
  serverInfoAppVersion : String
  serverCodecModeSupport : Int
  deriving DecidableEq, Repr

/-- The fields of `SERVER_DATA` that `main.c` reads. -/
structure SERVER_DATA where
  paired : Bool
  currentGame : Int
  isGfe : Bool
  gpuType : String
  gsVersion : String
  serverInfo : SERVER_INFORMATION
  deriving DecidableEq, Repr

/-- The entry `a[i]`, for `0 <= i`, of an array of `char *`; a slot the list
does not hold is `NULL`. -/
def index (a : List (Option String)) (i : Int) : Option String := a.getD i.toNat none

/-- The `%s` conversion of a `char *`. -/
def fmt_s (s : Option String) : String := s.getD "(null)"

/-! ## Calls that leave `main.c` -/

/-- A call to a function defined outside `main.c`, with the arguments that
`main.c` computes. Formatted output carries the formatted text. -/
inductive Call
  | wiiu_proc_init
  | Debug_Init
  | WHBGfxInit
  | wiiu_setup_renderstate
  | SDL_InitSubSystem
  | wiiu_net_init
  | wiiu_input_init
  | Font_Init
  | Font_Clear
  | Font_SetSize (size : Int)
  | Font_SetColor (r g b a : Int)
  | Font_Print (x y : Int) (text : String)
  | Font_Printf (x y : Int) (text : String)
  | Font_Draw_TVDRC
  | printf (text : String)
  | fprintf_stderr (text : String)
  | config_parse
  | access
  | config_file_parse
  | wiiu_stream_init (width height : Int)
  | gs_new
  | gs_get_error
  | gs_conf_init
  | gs_get_error_message
  | wiiu_proc_running
  | wiiu_input_buttons_triggered
  | gs_get_status (address : Option String) (unsupported : Bool)
  | random
  | gs_set_timeout (seconds : Int)
  | gs_pair (pin : String)
  | gs_applist
  | wiiu_input_num_controllers
  | gs_start_app (appId : Int) (isGfe sops localaudio : Bool) (gamepad_mask : Int)
  | LiStartConnection
  | wiiu_proc_set_home_enabled (enabled : Int)
  | start_input_thread
  | stop_input_thread
  | LiStopConnection
  | gs_quit_app
  | wiiu_stream_draw
  deriving DecidableEq, Repr

/-! ## Program state -/

/-- The globals of `main.c` (`state`, `is_error`, `message_buffer`,
`autostream`), the locals of `main` that live across loop iterations, whether
a `sprintf` has written past the end of `message_buffer`, and the trace of
outside calls made so far. -/
structure Machine where
  state : State
  is_error : Int
  message_buffer : String
  autostream : Int
  config : CONFIGURATION
  selected_address : Int
  cur_address : Option String
  client : Option Nat
  server : SERVER_DATA
  message_overrun : Bool
  trace : List Call
  deriving DecidableEq, Repr

/-- Record one outside call. -/
def Machine.call (m : Machine) (c : Call) : Machine := { m with trace := m.trace ++ [c] }

/-- Record several outside calls, in order. -/
def Machine.calls (m : Machine) (cs : List Call) : Machine := { m with trace := m.trace ++ cs }

/-- The calls made between machine `m` and a later machine `m2`. -/
def issued (m m2 : Machine) : List Call := m2.trace.drop m.trace.length

/-- What the outside world answers during one iteration of the main loop:
return values of the calls, and the contents written through their pointer
arguments (`&server`, `&server->serverInfo`, `&config->stream`, `&list`); and
what `message_buffer` and `autostream` hold after a write past the end of
`message_buffer`, which `main.c` does not determine. -/
structure Inputs where
  async_state : Option State
  btns : Nat
  error_message : String
  status_ret : Int
  status_server : SERVER_DATA
  random0 : Int
  random1 : Int
  random2 : Int
  random3 : Int
  pair_ret : Int
  pair_server : SERVER_DATA
  applist_ret : Int
  applist : List APP_LIST
  applist_server : SERVER_DATA
  num_controllers : Int
  start_app_ret : Int
  start_app_server : SERVER_DATA
  start_app_stream : STREAM_CONFIGURATION
  start_connection_ret : Int
  start_connection_serverInfo : SERVER_INFORMATION
  start_connection_stream : STREAM_CONFIGURATION
  quit_app_server : SERVER_DATA
  overrun_message_buffer : String
  overrun_autostream : Int

/-- The size of `char message_buffer[1024]` (line 57). -/
def MESSAGE_BUFFER_SIZE : Nat := 1024

/-- The call `sprintf(message_buffer, ...)` for a format with a `%s`, `text`
being the formatted text.  The call writes the bytes of `text` and a
terminating NUL.  If they fit in the array, the buffer holds `text`.  If not,
the call writes past the end of the array, over what is stored after it
(`autostream` is declared next): the machine is marked `message_overrun`, and
what `message_buffer` and `autostream` hold from then on is taken from the
inputs. -/
def sprintf_message_buffer (i : Inputs) (text : String) (m : Machine) : Machine :=
  if text.utf8ByteSize + 1 ≤ MESSAGE_BUFFER_SIZE then
    { m with message_buffer := text }
  else
    { m with message_buffer := i.overrun_message_buffer, autostream := i.overrun_autostream,
             message_overrun := true }

/-- The line of box-drawing characters under the title. -/
def SCREEN_BAR : String := "━━━━━━━━━━━━━━━━━━━━━━━━━━━━━━━━━━━━━━\n"

/-! ## `get_app_id` and `stream` -/

/-- The `while (list != NULL)` loop of `get_app_id`. -/
def get_app_id_loop (name : String) : List APP_LIST → Int
  | [] => -1
  | list :: next => if strcmp list.name name = 0 then list.id else get_app_id_loop name next

/-- The function `get_app_id` (lines 61-75). -/
def get_app_id (h : Headers) (i : Inputs) (name : String) (m : Machine) : Int × Machine :=
  let m := { m.call Call.gs_applist with server := i.applist_server }
  if i.applist_ret ≠ h.GS_OK then
    (-1, m.call (Call.fprintf_stderr "Can't get app list\n"))
  else
    (get_app_id_loop name i.applist, m)

/-- The `for` loop of `stream` that builds `gamepad_mask`; the first argument
counts the iterations still to run. -/
def gamepad_mask_loop : Nat → Int → Int
  | 0, gamepad_mask => gamepad_mask
  | remaining + 1, gamepad_mask =>
    gamepad_mask_loop remaining (wrap32 (wrap32 (gamepad_mask * 2) + 1))

/-- The text `stream` writes to `stderr` when `gs_start_app` fails, and the
calls made to build it (lines 93-102). -/
def start_app_failure (h : Headers) (i : Inputs) (config : CONFIGURATION) (ret : Int) :
    List Call :=
  if ret = h.GS_NOT_SUPPORTED_4K then
    [Call.fprintf_stderr "Server doesn't support 4K\n"]
  else if ret = h.GS_NOT_SUPPORTED_MODE then
    [Call.fprintf_stderr ("Server doesn't support " ++ fmt_d config.stream.width ++ "x"
      ++ fmt_d config.stream.height ++ " (" ++ fmt_d config.stream.fps
      ++ " fps) or remove --nounsupported option\n")]
  else if ret = h.GS_NOT_SUPPORTED_SOPS_RESOLUTION then
    [Call.fprintf_stderr ("Optimal Playable Settings isn't supported for the resolution "
      ++ fmt_d config.stream.width ++ "x" ++ fmt_d config.stream.height
      ++ ", use supported resolution or add --nosops option\n")]
  else if ret = h.GS_ERROR then
    [Call.gs_get_error_message,
     Call.fprintf_stderr ("Gamestream error: " ++ i.error_message ++ "\n")]
  else
    [Call.fprintf_stderr ("Errorcode starting app: " ++ fmt_d ret ++ "\n")]

/-- The function `stream` (lines 77-122): the returned `int` and the machine
after the call. -/
def stream (h : Headers) (i : Inputs) (m : Machine) : Int × Machine :=
  let r := get_app_id h i m.config.app m
  let appId := r.1
  let m := r.2
  if appId < 0 then
    let m := m.call (Call.fprintf_stderr ("Can't find app " ++ m.config.app ++ "\n"))
    let m := sprintf_message_buffer i ("Can't find app " ++ m.config.app ++ "\n") m
    (-1, { m with is_error := 1 })
  else
    let m := m.call Call.wiiu_input_num_controllers
    let gamepads := i.num_controllers
    let gamepad_mask := gamepad_mask_loop gamepads.toNat 0
    let m := m.call (Call.gs_start_app appId m.server.isGfe m.config.sops m.config.localaudio
      gamepad_mask)
    let m := { m with server := i.start_app_server,
                      config := { m.config with stream := i.start_app_stream } }
    let ret := i.start_app_ret
    if ret < 0 then
      let m := m.calls (start_app_failure h i m.config ret)
      (-1, { m with message_buffer := "Errorcode starting app: " ++ fmt_d ret ++ "\n",
                    is_error := 1 })
    else
      let m : Machine :=
        if m.config.debug_level > 0 then
          m.call (Call.printf ("Stream " ++ fmt_d m.config.stream.width ++ " x "
            ++ fmt_d m.config.stream.height ++ ", " ++ fmt_d m.config.stream.fps ++ " fps, "
            ++ fmt_d m.config.stream.bitrate ++ " kbps\n"))
        else m
      let m := m.call Call.LiStartConnection
      let m := { m with server := { m.server with serverInfo := i.start_connection_serverInfo },
                        config := { m.config with stream := i.start_connection_stream } }
      if i.start_connection_ret ≠ 0 then
        let m := m.call (Call.fprintf_stderr "Failed to start connection\n")
        (-1, { m with message_buffer := "Failed to start connection\n", is_error := 1 })
      else
        (0, m)

/-! ## Start-up: lines 124-203 of `main` -/

/-- What the outside world answers during start-up: the configuration read by
`config_parse`, the result of `access` and the configuration left by
`config_file_parse`, the results of the client-creation calls, and the
contents of the uninitialised local `server`. -/
structure Startup where
  parsed : CONFIGURATION
  access_ret : Int
  host_config : CONFIGURATION
  gs_new_first : Option Nat
  gs_error : Int
  gs_conf_init_ret : Int
  gs_new_second : Option Nat
  error_message : String
  server : SERVER_DATA

/-- The machine before the first statement of `main`: the initialisers of the
globals, `selected_address = 0`, nothing called yet. -/
def boot (s : Startup) : Machine :=
  { state := STATE_INVALID, is_error := 0, message_buffer := "", autostream := 0,
    config := s.parsed, selected_address := 0, cur_address := none, client := none,
    server := s.server, message_overrun := false, trace := [] }

/-- Lines 125-180: platform set-up, `config_parse`, and the selection of the
initial state from the configured addresses. -/
def select_initial_state (h : Headers) (s : Startup) : Machine :=
  let m := boot s
  let m := m.call Call.wiiu_proc_init
  let m : Machine :=
    if h.DEBUG then m.calls [Call.Debug_Init, Call.printf "Moonlight Wii U started\n"]
    else m
  let m := m.calls [Call.WHBGfxInit, Call.wiiu_setup_renderstate, Call.SDL_InitSubSystem,
    Call.wiiu_net_init, Call.wiiu_input_init, Call.Font_Init, Call.Font_SetSize 50,
    Call.Font_SetColor 255 255 255 255, Call.Font_Print 8 58 "Reading configuration...",
    Call.Font_Draw_TVDRC, Call.config_parse]
  let m := { m with config := { s.parsed with unsupported := true, sops := false } }
  let m := { m with selected_address := 0 }
  if index m.config.address 0 = none then
    let m := m.calls [Call.fprintf_stderr "Specify an IP address\n", Call.Font_Clear,
      Call.Font_Print 8 58 ("Specify an IP address in the configuration file.\n"
        ++ "Make sure to remove the \x27#\x27 in front of the \x27address\x27 line.")]
    { m with state := STATE_INVALID }
  else
    let m := m.call Call.access
    let m : Machine := if s.access_ret ≠ -1 then
               { m.call Call.config_file_parse with config := s.host_config }
             else m
    if m.config.addressCount = 1 then
      { m with cur_address := index m.config.address 0, state := STATE_CONNECTING }
    else
      { m with state := STATE_DISCONNECTED }

/-- Lines 182-201: `wiiu_stream_init` and the creation of the GameStream
client. -/
def create_client (h : Headers) (s : Startup) (m : Machine) : Machine :=
  let m := m.call (Call.wiiu_stream_init m.config.stream.width m.config.stream.height)
  let m := { m.call Call.gs_new with client := s.gs_new_first }
  let m : Machine :=
    if m.client = none then
      let m := m.call Call.gs_get_error
      if s.gs_error = h.GS_BAD_CONF then
        let m := m.call Call.gs_conf_init
        if s.gs_conf_init_ret ≠ h.GS_OK then
          let m := m.calls [Call.gs_get_error_message,
            Call.fprintf_stderr ("Failed to create client info: " ++ s.error_message ++ "\n"),
            Call.Font_Clear, Call.gs_get_error_message,
            Call.Font_Printf 8 58 ("Failed to create client info:\n " ++ s.error_message ++ ".")]
          { m with state := STATE_INVALID }
        else
          { m.call Call.gs_new with client := s.gs_new_second }
      else m
    else m
  if m.client = none then
    let m := m.calls [Call.gs_get_error_message,
      Call.fprintf_stderr ("Failed to create GameStream client: " ++ s.error_message ++ "\n"),
      Call.Font_Clear, Call.gs_get_error_message,
      Call.Font_Printf 8 58 ("Failed to create GameStream client:\n " ++ s.error_message ++ ".")]
    { m with state := STATE_INVALID }
  else m

/-- The machine when `main` reaches its loop (line 204). -/
def startup (h : Headers) (s : Startup) : Machine :=
  create_client h s (select_initial_state h s)

/-! ## The main loop: lines 204-423 of `main` -/

/-- The `for` loop of `case STATE_DISCONNECTED` that prints the host list;
the first argument counts the iterations still to run, `i` is the loop
variable. -/
def print_address_loop (config : CONFIGURATION) (selected_address : Int) :
    Nat → Int → List Call
  | 0, _ => []
  | remaining + 1, i =>
    match index config.address i with
    | none => []
    | some a =>
      Call.Font_Printf 8 (wrap32 (208 + wrap32 (i * 50)))
          ((if i = selected_address then ">" else "  ") ++ " Connect to " ++ a)
        :: print_address_loop config selected_address remaining (i + 1)

/-- The colour chosen for the message line from `is_error`. -/
def message_color (is_error : Int) : Call :=
  if is_error ≠ 0 then Call.Font_SetColor 255 0 0 255 else Call.Font_SetColor 0 255 0 255

/-- The body of `case STATE_DISCONNECTED` (lines 210-255). -/
def case_disconnected (h : Headers) (i : Inputs) (m : Machine) : Machine :=
  let m := m.calls [Call.Font_Clear, Call.Font_SetSize 50, Call.Font_SetColor 255 255 255 255,
    Call.Font_Printf 8 58 ("Moonlight Wii U " ++ h.VERSION_STRING
      ++ " (Disconnected), Press \uE000 to select\n" ++ SCREEN_BAR)]
  let m := m.calls (print_address_loop m.config m.selected_address m.config.addressCount.toNat 0)
  let m := m.calls [message_color m.is_error, Call.Font_SetSize 50,
    Call.Font_Print 8 400 m.message_buffer, Call.Font_Draw_TVDRC]
  let m := m.call Call.wiiu_input_buttons_triggered
  let btns := i.btns
  if btns &&& h.VPAD_BUTTON_A ≠ 0 then
    { m with message_buffer := "", cur_address := index m.config.address m.selected_address,
             state := STATE_CONNECTING }
  else if btns &&& h.VPAD_BUTTON_DOWN ≠ 0 then
    { m with selected_address := wrap32 ((wrap32 (m.selected_address + 1)).tmod
               m.config.addressCount) }
  else if btns &&& h.VPAD_BUTTON_UP ≠ 0 then
    let selected_address := wrap32 ((wrap32 (m.selected_address - 1)).tmod m.config.addressCount)
    if selected_address < 0 then
      { m with selected_address := 0 }
    else
      { m with selected_address := selected_address }
  else m

/-- The failure branches of `case STATE_CONNECTING`: log text, message text,
and whether the texts hold a `%s` of `gs_get_error_message()`. -/
def connecting_failure (i : Inputs) (m : Machine) (log message : String) (getter : Bool) :
    Machine :=
  let m : Machine := if getter then m.call Call.gs_get_error_message else m
  let m := m.call (Call.fprintf_stderr log)
  let m : Machine := if getter then m.call Call.gs_get_error_message else m
  let m : Machine := if getter then sprintf_message_buffer i message m
                     else { m with message_buffer := message }
  { m with is_error := 1, state := STATE_DISCONNECTED }

/-- The body of `case STATE_CONNECTING` (lines 256-311). -/
def case_connecting (h : Headers) (i : Inputs) (m : Machine) : Machine :=
  let m := m.calls [Call.printf ("Connecting to " ++ fmt_s m.cur_address ++ "...\n"),
    Call.Font_Clear, Call.Font_SetSize 50, Call.Font_SetColor 255 255 255 255,
    Call.Font_Printf 8 58 ("Connecting to " ++ fmt_s m.cur_address ++ "...\n"),
    Call.Font_Draw_TVDRC]
  let m := { m.call (Call.gs_get_status m.cur_address m.config.unsupported) with
             server := i.status_server }
  let ret := i.status_ret
  if ret = h.GS_OUT_OF_MEMORY then
    connecting_failure i m "Not enough memory\n" "Not enough memory\n" false
  else if ret = h.GS_ERROR then
    connecting_failure i m ("Gamestream error: " ++ i.error_message ++ "\n")
      ("Gamestream error:\n" ++ i.error_message ++ "\n") true
  else if ret = h.GS_INVALID then
    connecting_failure i m ("Invalid data received from server: " ++ i.error_message ++ "\n")
      ("Invalid data received from server:\n" ++ i.error_message ++ "\n") true
  else if ret = h.GS_UNSUPPORTED_VERSION then
    connecting_failure i m ("Unsupported version: " ++ i.error_message ++ "\n")
      ("Unsupported version:\n" ++ i.error_message ++ "\n") true
  else if ret ≠ h.GS_OK then
    connecting_failure i m ("Can\x27t connect to server " ++ fmt_s m.cur_address ++ "\n")
      "Can\x27t connect to server\n" false
  else
    let m : Machine :=
      if m.config.debug_level > 0 then
        m.calls [Call.printf ("NVIDIA " ++ m.server.gpuType ++ ", GFE "
            ++ m.server.serverInfo.serverInfoGfeVersion ++ " (" ++ m.server.gsVersion ++ ", "
            ++ m.server.serverInfo.serverInfoAppVersion ++ ")\n"),
          Call.printf ("Server codec flags: 0x"
            ++ fmt_x m.server.serverInfo.serverCodecModeSupport ++ "\n")]
      else m
    if m.autostream ≠ 0 then
      { m with state := STATE_START_STREAM }
    else
      { m with state := STATE_CONNECTED }

/-- The body of `case STATE_CONNECTED` (lines 312-345). -/
def case_connected (h : Headers) (i : Inputs) (m : Machine) : Machine :=
  let m := m.calls [Call.Font_Clear, Call.Font_SetSize 50, Call.Font_SetColor 255 255 255 255,
    Call.Font_Printf 8 58 ("Moonlight Wii U " ++ h.VERSION_STRING ++ " (Connected to "
      ++ fmt_s m.cur_address ++ ")\n" ++ SCREEN_BAR
      ++ "Press \uE000 to stream\nPress \uE002 to pair\n\nPress \uE001 to go back\n"),
    message_color m.is_error, Call.Font_SetSize 50, Call.Font_Print 8 400 m.message_buffer,
    Call.Font_Draw_TVDRC]
  let m := m.call Call.wiiu_input_buttons_triggered
  let btns := i.btns
  if btns &&& h.VPAD_BUTTON_A ≠ 0 then
    { m with message_buffer := "", state := STATE_START_STREAM }
  else if btns &&& h.VPAD_BUTTON_X ≠ 0 then
    { m with message_buffer := "", state := STATE_PAIRING }
  else if btns &&& h.VPAD_BUTTON_B ≠ 0 then
    { m with message_buffer := "", state := STATE_DISCONNECTED }
  else m

/-- The four-digit `pin` built from four `random()` results (line 348). -/
def make_pin (i : Inputs) : String :=
  fmt_d (to_unsigned i.random0 % 10) ++ fmt_d (to_unsigned i.random1 % 10)
    ++ fmt_d (to_unsigned i.random2 % 10) ++ fmt_d (to_unsigned i.random3 % 10)

/-- The body of `case STATE_PAIRING` (lines 346-375). -/
def case_pairing (h : Headers) (i : Inputs) (m : Machine) : Machine :=
  let m := m.calls [Call.random, Call.random, Call.random, Call.random]
  let pin := make_pin i
  let m := m.calls [
    Call.printf ("Please enter the following PIN on the target PC: " ++ pin ++ "\n"),
    Call.Font_Clear, Call.Font_SetSize 50, Call.Font_SetColor 255 255 255 255,
    Call.Font_Printf 8 58 ("Please enter the following PIN on the target PC:\n" ++ pin ++ "\n"),
    Call.Font_Draw_TVDRC]
  let m := m.call (Call.gs_set_timeout 60)
  let m := { m.call (Call.gs_pair pin) with server := i.pair_server }
  let m : Machine :=
    if i.pair_ret ≠ h.GS_OK then
      let m := m.calls [Call.gs_get_error_message,
        Call.fprintf_stderr ("Failed to pair to server: " ++ i.error_message ++ "\n"),
        Call.gs_get_error_message]
      let m := sprintf_message_buffer i
        ("Failed to pair to server:\n" ++ i.error_message ++ "\n") m
      { m with is_error := 1 }
    else
      let m := m.call (Call.printf "Succesfully paired\n")
      { m with message_buffer := "Succesfully paired\n", is_error := 0 }
  let m := m.call (Call.gs_set_timeout 5)
  if m.server.currentGame ≠ 0 then
    { m with state := STATE_DISCONNECTED }
  else
    { m with state := STATE_CONNECTED }

/-- The body of `case STATE_START_STREAM` (lines 376-403). -/
def case_start_stream (h : Headers) (i : Inputs) (m : Machine) : Machine :=
  let m := m.calls [Call.Font_Clear, Call.Font_SetSize 50, Call.Font_SetColor 255 255 255 255,
    Call.Font_Print 8 58 "Starting stream...", Call.Font_Draw_TVDRC]
  if m.server.paired then
    let m := { m with config := { m.config with stream :=
      { m.config.stream with supportedVideoFormats := h.VIDEO_FORMAT_H264 } } }
    let r := stream h i m
    if r.1 = 0 then
      let m := r.2.call (Call.wiiu_proc_set_home_enabled 0)
      let m := m.call Call.start_input_thread
      { m with state := STATE_STREAMING }
    else
      { r.2 with state := STATE_CONNECTED }
  else
    let m := m.call (Call.printf "You must pair with the PC first\n")
    { m with message_buffer := "You must pair with the PC first\n", is_error := 1,
             state := STATE_CONNECTED }

/-- The body of `case STATE_STOP_STREAM` (lines 408-421). -/
def case_stop_stream (i : Inputs) (m : Machine) : Machine :=
  let m := m.call Call.stop_input_thread
  let m := m.call Call.LiStopConnection
  let m : Machine :=
    if m.config.quitappafter then
      let m : Machine := if m.config.debug_level > 0 then
                 m.call (Call.printf "Sending app quit request ...\n")
               else m
      { m.call Call.gs_quit_app with server := i.quit_app_server }
    else m
  let m := m.call (Call.wiiu_proc_set_home_enabled 1)
  { m with state := STATE_DISCONNECTED }

/-- The `switch (state)` of the main loop (lines 205-422). -/
def step (h : Headers) (i : Inputs) (m : Machine) : Machine :=
  match m.state with
  | STATE_INVALID => m.call Call.Font_Draw_TVDRC
  | STATE_DISCONNECTED => case_disconnected h i m
  | STATE_CONNECTING => case_connecting h i m
  | STATE_CONNECTED => case_connected h i m
  | STATE_PAIRING => case_pairing h i m
  | STATE_START_STREAM => case_start_stream h i m
  | STATE_STREAMING => m.call Call.wiiu_stream_draw
  | STATE_STOP_STREAM => case_stop_stream i m

/-- One iteration of `while (wiiu_proc_running())` in which the call returned
true.  `state` is a global that other compilation units assign (the stop
request that ends `STATE_STREAMING` comes from there); `async_state` is such
an assignment, taking effect before the `switch` reads `state`. -/
def loop_iteration (h : Headers) (i : Inputs) (m : Machine) : Machine :=
  let m := m.call Call.wiiu_proc_running
  let m : Machine := match i.async_state with
           | some s => { m with state := s }
           | none => m
  step h i m

/-- The main loop run for as many iterations as there are inputs. -/
def run (h : Headers) : List Inputs → Machine → Machine
  | [], m => m
  | i :: rest, m => run h rest (loop_iteration h i m)

/-! ## Reading a trace -/

/-- Whether a call is a stream-start request (`gs_start_app`). -/
def Call.is_start_app : Call → Bool
  | Call.gs_start_app _ _ _ _ _ => true
  | _ => false

/-- Whether a call is a pairing request (`gs_pair`). -/
def Call.is_pair : Call → Bool
  | Call.gs_pair _ => true
  | _ => false

/-- The gamepad mask a call passes to the host, if it is a stream-start. -/
def Call.gamepad_mask? : Call → Option Int
  | Call.gs_start_app _ _ _ _ gamepad_mask => some gamepad_mask
  | _ => none

/-- The application id a call passes to the host, if it is a stream-start. -/
def Call.app_id? : Call → Option Int
  | Call.gs_start_app appId _ _ _ _ => some appId
  | _ => none

/-- The timeout a call sets, if it is `gs_set_timeout`. -/
def Call.timeout? : Call → Option Int
  | Call.gs_set_timeout seconds => some seconds
  | _ => none

/-- Test for one given call. -/
def is_call (c : Call) : Call → Bool := fun d => decide (d = c)

/-- In trace `t` a call satisfying `q` occurs, a call satisfying `p` occurs
before the first such call, and none occurs at or after it: every `p` call is
strictly before every `q` call, and both kinds occur. -/
def strictly_before (p q : Call → Bool) (t : List Call) : Prop :=
  t.any q = true ∧ (t.take (t.findIdx q)).any p = true ∧ (t.drop (t.findIdx q)).any p = false

instance (p q : Call → Bool) (t : List Call) : Decidable (strictly_before p q t) := by
  unfold strictly_before; infer_instance

/-! ## Sample data -/

/-- A sample assignment of the header constants. -/
def sample_headers : Headers :=
  { GS_OK := 0, GS_OUT_OF_MEMORY := -2, GS_ERROR := -9, GS_INVALID := -3,
    GS_UNSUPPORTED_VERSION := -7, GS_BAD_CONF := -11, GS_NOT_SUPPORTED_4K := -6,
    GS_NOT_SUPPORTED_MODE := -8, GS_NOT_SUPPORTED_SOPS_RESOLUTION := -10,
    VPAD_BUTTON_A := 0x8000, VPAD_BUTTON_B := 0x4000, VPAD_BUTTON_X := 0x2000,
    VPAD_BUTTON_UP := 0x0200, VPAD_BUTTON_DOWN := 0x0100,
    VIDEO_FORMAT_H264 := 1, VERSION_STRING := "v1.0", DEBUG := false }

/-- A sample stream configuration: 1280x720 at 60 fps. -/
def sample_stream : STREAM_CONFIGURATION :=
  { width := 1280, height := 720, fps := 60, bitrate := 10000, supportedVideoFormats := 0 }

/-- A sample configuration with three host addresses and the app "Steam". -/
def sample_config : CONFIGURATION :=
  { stream := sample_stream, debug_level := 0, app := "Steam",
    address := [some "192.168.1.10", some "192.168.1.11", some "192.168.1.12"],
    addressCount := 3, unsupported := true, sops := false, localaudio := false,
    quitappafter := false }

/-- A sample host record: paired, nothing running. -/
def sample_server : SERVER_DATA :=
  { paired := true, currentGame := 0, isGfe := true, gpuType := "GPU", gsVersion := "1",
    serverInfo := { serverInfoGfeVersion := "3", serverInfoAppVersion := "7",
                    serverCodecModeSupport := 1 } }

/-- A sample machine in a given state: no error, empty trace. -/
def sample_machine (st : State) : Machine :=
  { state := st, is_error := 0, message_buffer := "", autostream := 0, config := sample_config,
    selected_address := 0, cur_address := some "192.168.1.10", client := some 1,
    server := sample_server, message_overrun := false, trace := [] }

/-- Sample answers of the outside world: every call succeeds, the host lists
the applications ("Steam", 1) and ("Desktop", 2), two controllers attached. -/
def sample_inputs : Inputs :=
  { async_state := none, btns := 0, error_message := "timeout",
    status_ret := 0, status_server := sample_server,
    random0 := 1, random1 := 2, random2 := 3, random3 := 4,
    pair_ret := 0, pair_server := sample_server,
    applist_ret := 0, applist := [{ name := "Steam", id := 1 }, { name := "Desktop", id := 2 }],
    applist_server := sample_server, num_controllers := 2,
    start_app_ret := 0, start_app_server := sample_server, start_app_stream := sample_stream,
    start_connection_ret := 0, start_connection_serverInfo := sample_server.serverInfo,
    start_connection_stream := sample_stream, quit_app_server := sample_server,
    overrun_message_buffer := "", overrun_autostream := 1094795585 }

/-- Sample start-up answers: the sample configuration, no per-host file, the
client is created at the first attempt. -/
def sample_startup : Startup :=
  { parsed := sample_config, access_ret := -1, host_config := sample_config,
    gs_new_first := some 1, gs_error := 0, gs_conf_init_ret := 0, gs_new_second := none,
    error_message := "", server := sample_server }

/-- Sample answers in which the pairing request fails while the host reports a
running application (id 5). -/
def sample_inputs_pair_failed : Inputs :=
  { sample_inputs with pair_ret := -4, pair_server := { sample_server with currentGame := 5 } }

/-- Sample answers in which `gs_start_app` returns the sample value of
`GS_NOT_SUPPORTED_4K`. -/
def sample_inputs_4k : Inputs := { sample_inputs with start_app_ret := -6 }

/-- Sample start-up answers with exactly one configured host address. -/
def sample_startup_one_host : Startup :=
  { sample_startup with
    parsed := { sample_config with address := [some "192.168.1.10"], addressCount := 1 } }

/-- Sample answers in which `gs_start_app` returns -1, a failure code that is
none of the classified sample codes. -/
def sample_inputs_unclassified : Inputs := { sample_inputs with start_app_ret := -1 }

/-- Sample answers in which only the Down button was pressed. -/
def sample_inputs_down : Inputs := { sample_inputs with btns := 0x0100 }

/-- Sample answers in which only the Up button was pressed. -/
def sample_inputs_up : Inputs := { sample_inputs with btns := 0x0200 }

/-! ## Lemmas on the helpers -/

theorem append_newline_ne_empty (s : String) : s ++ "\n" ≠ "" := by
  intro hempty
  have hlen := congrArg String.length hempty
  simp only [String.length_append] at hlen
  have hnl : "\n".length = 1 := by decide
  have hz : "".length = 0 := by decide
  omega

theorem utf8ByteSize_data (s : String) : s.utf8ByteSize = String.utf8Len s.data := by
  cases s
  rfl

theorem utf8ByteSize_append (s t : String) :
    (s ++ t).utf8ByteSize = s.utf8ByteSize + t.utf8ByteSize := by
  rw [utf8ByteSize_data, utf8ByteSize_data, utf8ByteSize_data, String.data_append,
    String.utf8Len_append]

theorem sprintf_message_buffer_keeps (i : Inputs) (text : String) (m : Machine) :
    (sprintf_message_buffer i text m).trace = m.trace
    ∧ (sprintf_message_buffer i text m).config = m.config
    ∧ (sprintf_message_buffer i text m).selected_address = m.selected_address
    ∧ (sprintf_message_buffer i text m).server = m.server
    ∧ (sprintf_message_buffer i text m).state = m.state
    ∧ (sprintf_message_buffer i text m).is_error = m.is_error := by
  unfold sprintf_message_buffer
  split_ifs <;> simp

theorem sprintf_message_buffer_fits (i : Inputs) (text : String) (m : Machine)
    (hfit : text.utf8ByteSize + 1 ≤ MESSAGE_BUFFER_SIZE) :
    sprintf_message_buffer i text m = { m with message_buffer := text } := by
  unfold sprintf_message_buffer
  rw [if_pos hfit]

theorem sprintf_message_buffer_overrun (i : Inputs) (text : String) (m : Machine)
    (hbig : MESSAGE_BUFFER_SIZE < text.utf8ByteSize + 1) :
    (sprintf_message_buffer i text m).message_overrun = true
    ∧ (sprintf_message_buffer i text m).autostream = i.overrun_autostream := by
  unfold sprintf_message_buffer
  rw [if_neg (by omega)]
  exact ⟨rfl, rfl⟩

theorem pair_failed_fits (message : String) (hfit : message.utf8ByteSize ≤ 996) :
    ("Failed to pair to server:\n" ++ message ++ "\n").utf8ByteSize + 1
      ≤ MESSAGE_BUFFER_SIZE := by
  rw [utf8ByteSize_append, utf8ByteSize_append]
  have hhead : "Failed to pair to server:\n".utf8ByteSize = 26 := by decide
  have hnl : "\n".utf8ByteSize = 1 := by decide
  unfold MESSAGE_BUFFER_SIZE
  omega

theorem issued_stream_not_found (h : Headers) (i : Inputs) (m : Machine)
    (hneg : (get_app_id h i m.config.app m).1 < 0) :
    ∀ c ∈ issued m (stream h i m).2, c.is_start_app = false := by
  unfold stream
  simp only [hneg, if_true]
  unfold get_app_id issued Machine.call
  split_ifs <;> simp [Call.is_start_app, sprintf_message_buffer_keeps]

theorem stream_not_found_overrun (h : Headers) (i : Inputs) (m : Machine)
    (hneg : (get_app_id h i m.config.app m).1 < 0)
    (hbig : 1008 ≤ m.config.app.utf8ByteSize) :
    (stream h i m).2.message_overrun = true
    ∧ (stream h i m).2.autostream = i.overrun_autostream := by
  have hover :
      MESSAGE_BUFFER_SIZE < ("Can't find app " ++ m.config.app ++ "\n").utf8ByteSize + 1 := by
    rw [utf8ByteSize_append, utf8ByteSize_append]
    have hhead : "Can't find app ".utf8ByteSize = 15 := by decide
    have hnl : "\n".utf8ByteSize = 1 := by decide
    unfold MESSAGE_BUFFER_SIZE
    omega
  unfold stream
  simp only [hneg, if_true]
  unfold get_app_id Machine.call
  split_ifs <;> simp [sprintf_message_buffer_overrun _ _ _ hover]

theorem wrap32_of_range (x : Int) (hlo : -2147483648 ≤ x) (hhi : x ≤ 2147483647) :
    wrap32 x = x := by
  unfold wrap32
  omega

theorem two_pow_bounds (j : Nat) (hj : j ≤ 30) :
    (1 : Int) ≤ (2 : Int) ^ j ∧ (2 : Int) ^ j ≤ 1073741824 := by
  have hnat : 2 ^ j ≤ 2 ^ 30 := Nat.pow_le_pow_right (by decide) hj
  have hpos : 0 < 2 ^ j := Nat.pow_pos (by decide)
  have hcast : ((2 ^ j : Nat) : Int) = (2 : Int) ^ j := by push_cast; rfl
  rw [← hcast]
  norm_num at hnat
  omega

theorem gamepad_mask_body (j : Nat) (hj : j ≤ 30) :
    wrap32 (wrap32 (((2 : Int) ^ j - 1) * 2) + 1) = (2 : Int) ^ (j + 1) - 1 := by
  obtain ⟨hpos, hle⟩ := two_pow_bounds j hj
  have hinner : wrap32 (((2 : Int) ^ j - 1) * 2) = ((2 : Int) ^ j - 1) * 2 :=
    wrap32_of_range _ (by omega) (by omega)
  rw [hinner, wrap32_of_range _ (by omega) (by omega), pow_succ]
  ring

theorem gamepad_mask_loop_pow (k j : Nat) (hj : j + k ≤ 31) :
    gamepad_mask_loop k ((2 : Int) ^ j - 1) = (2 : Int) ^ (j + k) - 1 := by
  induction k generalizing j with
  | zero => simp [gamepad_mask_loop]
  | succ k ih =>
    have hidx : j + 1 + k = j + (k + 1) := by omega
    rw [gamepad_mask_loop, gamepad_mask_body j (by omega), ih (j + 1) (by omega), hidx]

theorem gamepad_mask_loop_zero (n : Nat) (hn : n ≤ 31) :
    gamepad_mask_loop n 0 = (2 : Int) ^ n - 1 := by
  have hloop := gamepad_mask_loop_pow n 0 (by omega)
  simpa using hloop

theorem gamepad_mask_none_of_not_start_app (c : Call) (hc : c.is_start_app = false) :
    c.gamepad_mask? = none := by
  cases c <;> first | rfl | exact absurd hc (by simp [Call.is_start_app])

theorem get_app_id_failed (h : Headers) (i : Inputs) (name : String) (m : Machine)
    (hfail : i.applist_ret ≠ h.GS_OK) : (get_app_id h i name m).1 = -1 := by
  simp [get_app_id, hfail]

theorem issued_stream_start_app (h : Headers) (i : Inputs) (m : Machine)
    (hid : 0 ≤ (get_app_id h i m.config.app m).1) :
    (issued m (stream h i m).2).filterMap Call.app_id? = [(get_app_id h i m.config.app m).1]
    ∧ (issued m (stream h i m).2).filterMap Call.gamepad_mask?
        = [gamepad_mask_loop i.num_controllers.toNat 0] := by
  have hnot : ¬ (get_app_id h i m.config.app m).1 < 0 := by omega
  unfold stream
  simp only [hnot, if_false]
  unfold get_app_id issued Machine.call Machine.calls start_app_failure
  split_ifs <;> simp [Call.app_id?, Call.gamepad_mask?, List.filterMap_cons]

/-! ## C1: application resolution -/

/-- C9: with `n` attached controllers, `0 <= n <= 31`, the loop of `stream`
computes the mask `2^n - 1`: bit `k` of it is set exactly when `k < n`.  Every
mask passed to `gs_start_app` by `stream` is that value, and when the
application id resolves (to a non-negative id) `gs_start_app` is called with
it.  For `n = 0` the mask is 0. -/
theorem C9_gamepad_mask (h : Headers) (i : Inputs) (m : Machine) (n : Nat)
    (hn : n ≤ 31) (hnum : i.num_controllers = (n : Int)) :
    gamepad_mask_loop i.num_controllers.toNat 0 = (2 : Int) ^ n - 1
    ∧ (∀ k : Nat,
        (gamepad_mask_loop i.num_controllers.toNat 0).toNat.testBit k = decide (k < n))
    ∧ (n = 0 → gamepad_mask_loop i.num_controllers.toNat 0 = 0)
    ∧ (∀ mask ∈ (issued m (stream h i m).2).filterMap Call.gamepad_mask?,
        mask = (2 : Int) ^ n - 1)
    ∧ (0 ≤ (get_app_id h i m.config.app m).1 →
        (issued m (stream h i m).2).filterMap Call.gamepad_mask? = [(2 : Int) ^ n - 1]) := by
  have hmask : gamepad_mask_loop i.num_controllers.toNat 0 = (2 : Int) ^ n - 1 := by
    rw [hnum, Int.toNat_ofNat]
    exact gamepad_mask_loop_zero n hn
  refine ⟨hmask, ?_, ?_, ?_, ?_⟩
  · intro k
    have hcast : ((2 : Int) ^ n - 1).toNat = 2 ^ n - 1 := by
      have hpos : 0 < 2 ^ n := Nat.pow_pos (by decide)
      have hc : ((2 ^ n : Nat) : Int) = (2 : Int) ^ n := by push_cast; rfl
      rw [← hc]
      omega
    rw [hmask, hcast, Nat.testBit_two_pow_sub_one]
  · intro hzero
    rw [hmask, hzero]
    rfl
  · intro mask hmem
    by_cases hid : 0 ≤ (get_app_id h i m.config.app m).1
    · rw [(issued_stream_start_app h i m hid).2, hmask] at hmem
      simpa using hmem
    · have hnone := issued_stream_not_found h i m (by omega)
      rw [List.mem_filterMap] at hmem
      obtain ⟨c, hc, hcm⟩ := hmem
      rw [gamepad_mask_none_of_not_start_app c (hnone c hc)] at hcm
      exact absurd hcm (by simp)
  · intro hid
    rw [(issued_stream_start_app h i m hid).2, hmask]

/-- C9 at the sample data: two controllers give the mask 3. -/
theorem C9_gamepad_mask_witness :
    (2 : Nat) ≤ 31 ∧ sample_inputs.num_controllers = ((2 : Nat) : Int)
    ∧ gamepad_mask_loop sample_inputs.num_controllers.toNat 0 = (2 : Int) ^ 2 - 1 :=
  ⟨by decide, by decide,
   (C9_gamepad_mask sample_headers sample_inputs (sample_machine STATE_START_STREAM) 2
      (by decide) (by decide)).1⟩

/-! ## C2: tearing the stream down -/

theorem issued_stop_stream (i : Inputs) (m : Machine) :
    issued m (case_stop_stream i m)
      = [Call.stop_input_thread, Call.LiStopConnection]
        ++ (if m.config.quitappafter = true then
              (if m.config.debug_level > 0 then [Call.printf "Sending app quit request ...\n"]
               else []) ++ [Call.gs_quit_app]
            else [])
        ++ [Call.wiiu_proc_set_home_enabled 1] := by
  by_cases hq : m.config.quitappafter = true <;> by_cases hd : m.config.debug_level > 0 <;>
    simp [case_stop_stream, issued, Machine.call, hq, hd]

/-- C2: in every `STATE_STOP_STREAM` step the calls issued are
`stop_input_thread`, `LiStopConnection`, then (only when `quitappafter` is
set) `gs_quit_app`, then `wiiu_proc_set_home_enabled(1)`: the input loop is
stopped strictly before the connection is closed, the quit request comes after
both and exactly when configured, the home shortcut is re-enabled last, and the
next state is `STATE_DISCONNECTED`. -/
theorem C2_stop_stream_order (h : Headers) (i : Inputs) (m : Machine)
    (hst : m.state = STATE_STOP_STREAM) :
    let t := issued m (step h i m)
    strictly_before (is_call Call.stop_input_thread) (is_call Call.LiStopConnection) t
    ∧ (Call.gs_quit_app ∈ t ↔ m.config.quitappafter = true)
    ∧ (m.config.quitappafter = true →
        strictly_before (is_call Call.stop_input_thread) (is_call Call.gs_quit_app) t
        ∧ strictly_before (is_call Call.LiStopConnection) (is_call Call.gs_quit_app) t)
    ∧ t.getLast? = some (Call.wiiu_proc_set_home_enabled 1)
    ∧ t.count (Call.wiiu_proc_set_home_enabled 1) = 1
    ∧ (step h i m).state = STATE_DISCONNECTED := by
  intro t
  have hstep : step h i m = case_stop_stream i m := by
    unfold step
    rw [hst]
  have ht : t = issued m (case_stop_stream i m) := by rw [← hstep]
  rw [issued_stop_stream] at ht
  clear_value t
  subst ht
  refine ⟨?_, ?_, ?_, ?_, ?_, ?_⟩
  · split_ifs <;> decide
  · by_cases hq : m.config.quitappafter = true
    · simp [hq]
    · simp only [hq, if_false]
      simp
  · intro hq
    simp only [hq, if_true]
    split_ifs <;> exact ⟨by decide, by decide⟩
  · split_ifs <;> rfl
  · split_ifs <;> decide
  · rw [hstep]
    rfl

/-- C2 at the sample data: a stop step from the sample machine ends in
`STATE_DISCONNECTED`. -/
theorem C2_stop_stream_order_witness :
    (sample_machine STATE_STOP_STREAM).state = STATE_STOP_STREAM
    ∧ (step sample_headers sample_inputs (sample_machine STATE_STOP_STREAM)).state
        = STATE_DISCONNECTED :=
  ⟨rfl, (C2_stop_stream_order sample_headers sample_inputs (sample_machine STATE_STOP_STREAM)
      rfl).2.2.2.2.2⟩

/-! ## C3, C4, C6: the pairing step -/

theorem step_pairing (h : Headers) (i : Inputs) (m : Machine) (hst : m.state = STATE_PAIRING) :
    step h i m = case_pairing h i m := by
  unfold step
  rw [hst]

theorem issued_pairing (h : Headers) (i : Inputs) (m : Machine) :
    issued m (case_pairing h i m)
      = [Call.random, Call.random, Call.random, Call.random,
          Call.printf ("Please enter the following PIN on the target PC: " ++ make_pin i ++ "\n"),
          Call.Font_Clear, Call.Font_SetSize 50, Call.Font_SetColor 255 255 255 255,
          Call.Font_Printf 8 58
            ("Please enter the following PIN on the target PC:\n" ++ make_pin i ++ "\n"),
          Call.Font_Draw_TVDRC, Call.gs_set_timeout 60, Call.gs_pair (make_pin i)]
        ++ (if i.pair_ret ≠ h.GS_OK then
              [Call.gs_get_error_message,
               Call.fprintf_stderr ("Failed to pair to server: " ++ i.error_message ++ "\n"),
               Call.gs_get_error_message]
            else [Call.printf "Succesfully paired\n"])
        ++ [Call.gs_set_timeout 5] := by
  by_cases hp : i.pair_ret = h.GS_OK <;>
    by_cases hg : i.pair_server.currentGame = 0 <;>
    simp [case_pairing, issued, Machine.call, Machine.calls, sprintf_message_buffer_keeps,
      hp, hg]

theorem pairing_result (h : Headers) (i : Inputs) (m : Machine) :
    (case_pairing h i m).server = i.pair_server
    ∧ (case_pairing h i m).state
        = (if i.pair_server.currentGame ≠ 0 then STATE_DISCONNECTED else STATE_CONNECTED)
    ∧ (case_pairing h i m).is_error = (if i.pair_ret ≠ h.GS_OK then 1 else 0)
    ∧ (i.pair_ret = h.GS_OK →
        (case_pairing h i m).message_buffer = "Succesfully paired\n") := by
  by_cases hp : i.pair_ret = h.GS_OK <;>
    by_cases hg : i.pair_server.currentGame = 0 <;>
    simp [case_pairing, Machine.call, Machine.calls, sprintf_message_buffer_keeps, hp, hg]

theorem pairing_failure_message (h : Headers) (i : Inputs) (m : Machine)
    (hfail : i.pair_ret ≠ h.GS_OK) (hfit : i.error_message.utf8ByteSize ≤ 996) :
    (case_pairing h i m).message_buffer
        = "Failed to pair to server:\n" ++ i.error_message ++ "\n"
    ∧ (case_pairing h i m).autostream = m.autostream
    ∧ (case_pairing h i m).message_overrun = m.message_overrun := by
  have hbuf := pair_failed_fits i.error_message hfit
  by_cases hg : i.pair_server.currentGame = 0 <;>
    simp [case_pairing, Machine.call, Machine.calls, sprintf_message_buffer_fits _ _ _ hbuf,
      hfail, hg]

theorem pairing_failure_overrun (h : Headers) (i : Inputs) (m : Machine)
    (hfail : i.pair_ret ≠ h.GS_OK) (hbig : 997 ≤ i.error_message.utf8ByteSize) :
    (case_pairing h i m).message_overrun = true
    ∧ (case_pairing h i m).autostream = i.overrun_autostream := by
  have hover : MESSAGE_BUFFER_SIZE
      < ("Failed to pair to server:\n" ++ i.error_message ++ "\n").utf8ByteSize + 1 := by
    rw [utf8ByteSize_append, utf8ByteSize_append]
    have hhead : "Failed to pair to server:\n".utf8ByteSize = 26 := by decide
    have hnl : "\n".utf8ByteSize = 1 := by decide
    unfold MESSAGE_BUFFER_SIZE
    omega
  by_cases hg : i.pair_server.currentGame = 0 <;>
    simp [case_pairing, Machine.call, Machine.calls, sprintf_message_buffer_keeps,
      sprintf_message_buffer_overrun _ _ _ hover, hfail, hg]

/-- C3: in a `STATE_PAIRING` step whose `gs_pair` call returns `GS_OK`, the
host record is the one `gs_pair` left, the next state is
`STATE_DISCONNECTED` when its `currentGame` is not 0 and `STATE_CONNECTED`
when it is 0, and the error flag is cleared with the success message. -/
theorem C3_pairing_success (h : Headers) (i : Inputs) (m : Machine)
    (hst : m.state = STATE_PAIRING) (hok : i.pair_ret = h.GS_OK) :
    (step h i m).server = i.pair_server
    ∧ ((step h i m).server.currentGame ≠ 0 → (step h i m).state = STATE_DISCONNECTED)
    ∧ ((step h i m).server.currentGame = 0 → (step h i m).state = STATE_CONNECTED)
    ∧ (step h i m).is_error = 0
    ∧ (step h i m).message_buffer = "Succesfully paired\n" := by
  rw [step_pairing h i m hst]
  obtain ⟨hserver, hstate, herr, hmsg⟩ := pairing_result h i m
  rw [hserver, hstate, herr, hmsg hok]
  refine ⟨rfl, ?_, ?_, by simp [hok], rfl⟩
  · intro hg
    simp [hg]
  · intro hg
    simp [hg]

/-- C3 at the sample data: pairing succeeds and the host runs nothing, so the
next state is `STATE_CONNECTED`. -/
theorem C3_pairing_success_witness :
    (sample_machine STATE_PAIRING).state = STATE_PAIRING
    ∧ sample_inputs.pair_ret = sample_headers.GS_OK
    ∧ (step sample_headers sample_inputs (sample_machine STATE_PAIRING)).state
        = STATE_CONNECTED :=
  ⟨rfl, by decide,
   (C3_pairing_success sample_headers sample_inputs (sample_machine STATE_PAIRING) rfl
      (by decide)).2.2.1 (by decide)⟩

/-- C4: in every `STATE_PAIRING` step, whatever `gs_pair` returns, the
timeouts set are exactly 60 and then 5: `gs_set_timeout(60)` is issued
strictly before `gs_pair`, `gs_set_timeout(5)` strictly after it, and the last
timeout set in the step is 5. -/
theorem C4_pairing_timeout (h : Headers) (i : Inputs) (m : Machine)
    (hst : m.state = STATE_PAIRING) :
    let t := issued m (step h i m)
    t.filterMap Call.timeout? = [60, 5]
    ∧ strictly_before (is_call (Call.gs_set_timeout 60)) Call.is_pair t
    ∧ strictly_before Call.is_pair (is_call (Call.gs_set_timeout 5)) t
    ∧ (t.filterMap Call.timeout?).getLast? = some 5
    ∧ t.getLast? = some (Call.gs_set_timeout 5) := by
  intro t
  have ht : t = issued m (case_pairing h i m) := by rw [← step_pairing h i m hst]
  rw [issued_pairing] at ht
  clear_value t
  subst ht
  by_cases hp : i.pair_ret = h.GS_OK <;>
    simp [hp, strictly_before, is_call, Call.is_pair, Call.timeout?, List.findIdx_cons]

/-- C4 at the sample data: the timeouts set in a pairing step are 60, then 5. -/
theorem C4_pairing_timeout_witness :
    (sample_machine STATE_PAIRING).state = STATE_PAIRING
    ∧ (issued (sample_machine STATE_PAIRING)
        (step sample_headers sample_inputs (sample_machine STATE_PAIRING))).filterMap
          Call.timeout? = [60, 5] :=
  ⟨rfl, (C4_pairing_timeout sample_headers sample_inputs (sample_machine STATE_PAIRING) rfl).1⟩

/-- C6 as stated fails: `gs_pair` fails while the host record reports a
running application (`currentGame = 5`); the error flag is set but the next
state is `STATE_DISCONNECTED`, not `STATE_CONNECTED`. -/
theorem C6_pairing_failure_counterexample :
    (sample_machine STATE_PAIRING).state = STATE_PAIRING
    ∧ sample_inputs_pair_failed.pair_ret ≠ sample_headers.GS_OK
    ∧ (step sample_headers sample_inputs_pair_failed (sample_machine STATE_PAIRING)).is_error = 1
    ∧ (step sample_headers sample_inputs_pair_failed (sample_machine STATE_PAIRING)).state
        = STATE_DISCONNECTED
    ∧ (step sample_headers sample_inputs_pair_failed (sample_machine STATE_PAIRING)).state
        ≠ STATE_CONNECTED := by
  refine ⟨rfl, by decide, ?_, ?_, ?_⟩ <;> decide

/-- C6, amended: in a `STATE_PAIRING` step whose `gs_pair` call fails with an
error text of at most 996 bytes (so that the message fits `message_buffer`),
the error flag is raised and `message_buffer` holds the pairing-failure
message for every value of `currentGame`, `autostream` is left as it was, and
the next state is `STATE_CONNECTED` when the host record's `currentGame` is 0
and `STATE_DISCONNECTED` when it is not. -/
theorem C6_pairing_failure (h : Headers) (i : Inputs) (m : Machine)
    (hst : m.state = STATE_PAIRING) (hfail : i.pair_ret ≠ h.GS_OK)
    (hfit : i.error_message.utf8ByteSize ≤ 996) :
    (step h i m).is_error = 1
    ∧ (step h i m).message_buffer = "Failed to pair to server:\n" ++ i.error_message ++ "\n"
    ∧ (step h i m).message_buffer ≠ ""
    ∧ (step h i m).autostream = m.autostream
    ∧ (step h i m).message_overrun = m.message_overrun
    ∧ ((step h i m).server.currentGame = 0 → (step h i m).state = STATE_CONNECTED)
    ∧ ((step h i m).server.currentGame ≠ 0 → (step h i m).state = STATE_DISCONNECTED) := by
  rw [step_pairing h i m hst]
  obtain ⟨hserver, hstate, herr, _⟩ := pairing_result h i m
  obtain ⟨hmsg, hauto, hover⟩ := pairing_failure_message h i m hfail hfit
  rw [hserver, hstate, herr, hmsg]
  refine ⟨by simp [hfail], rfl, append_newline_ne_empty _, hauto, hover, ?_, ?_⟩
  · intro hg
    simp [hg]
  · intro hg
    simp [hg]

/-- C6 (amended) at the sample failure: the error flag is raised. -/
theorem C6_pairing_failure_witness :
    (sample_machine STATE_PAIRING).state = STATE_PAIRING
    ∧ sample_inputs_pair_failed.pair_ret ≠ sample_headers.GS_OK
    ∧ sample_inputs_pair_failed.error_message.utf8ByteSize ≤ 996
    ∧ (step sample_headers sample_inputs_pair_failed (sample_machine STATE_PAIRING)).is_error
        = 1 :=
  ⟨rfl, by decide, by decide,
   (C6_pairing_failure sample_headers sample_inputs_pair_failed (sample_machine STATE_PAIRING)
      rfl (by decide) (by decide)).1⟩

/-! ## C5, C7: the stream-start step -/

theorem step_start_stream (h : Headers) (i : Inputs) (m : Machine)
    (hst : m.state = STATE_START_STREAM) : step h i m = case_start_stream h i m := by
  unfold step
  rw [hst]

theorem start_stream_start_failed (h : Headers) (i : Inputs) (m : Machine)
    (hp : m.server.paired = true) (hok : i.applist_ret = h.GS_OK)
    (hid : 0 ≤ get_app_id_loop m.config.app i.applist) (hr : i.start_app_ret < 0) :
    (case_start_stream h i m).state = STATE_CONNECTED
    ∧ (case_start_stream h i m).is_error = 1
    ∧ (case_start_stream h i m).message_buffer
        = "Errorcode starting app: " ++ fmt_d i.start_app_ret ++ "\n"
    ∧ Call.start_input_thread ∉ issued m (case_start_stream h i m)
    ∧ Call.LiStartConnection ∉ issued m (case_start_stream h i m)
    ∧ (i.start_app_ret = h.GS_NOT_SUPPORTED_4K →
        Call.fprintf_stderr "Server doesn't support 4K\n"
          ∈ issued m (case_start_stream h i m)) := by
  have hid2 : ¬ get_app_id_loop m.config.app i.applist < 0 := by omega
  simp only [case_start_stream, stream, get_app_id, start_app_failure, issued,
    Machine.call, Machine.calls]
  split_ifs <;> simp_all

/-- C5 as stated fails: the host is paired and `gs_start_app` returns
`GS_NOT_SUPPORTED_4K` (-6 in the sample headers); `message_buffer` becomes
"Errorcode starting app: -6", the text used for an unclassified failure code
(as for -1) with the number filled in; it does not contain "4K", and the
class-specific text is written to `stderr` only. -/
theorem C5_start_stream_4k_counterexample :
    (sample_machine STATE_START_STREAM).server.paired = true
    ∧ sample_inputs_4k.start_app_ret = sample_headers.GS_NOT_SUPPORTED_4K
    ∧ (step sample_headers sample_inputs_4k (sample_machine STATE_START_STREAM)).message_buffer
        = "Errorcode starting app: -6\n"
    ∧ ¬ List.IsInfix "4K".data
        (step sample_headers sample_inputs_4k
          (sample_machine STATE_START_STREAM)).message_buffer.data
    ∧ (step sample_headers sample_inputs_4k (sample_machine STATE_START_STREAM)).message_buffer
        ≠ "Server doesn't support 4K\n"
    ∧ (step sample_headers sample_inputs_unclassified
        (sample_machine STATE_START_STREAM)).message_buffer = "Errorcode starting app: -1\n"
    ∧ Call.fprintf_stderr "Server doesn't support 4K\n"
        ∈ issued (sample_machine STATE_START_STREAM)
            (step sample_headers sample_inputs_4k (sample_machine STATE_START_STREAM)) := by
  refine ⟨rfl, by decide, ?_, ?_, ?_, ?_, ?_⟩ <;> decide

/-- C5, amended: when the host is paired, the application id resolves and
`gs_start_app` returns the (negative) code `GS_NOT_SUPPORTED_4K`, the step sets
`is_error` to 1 and returns to `STATE_CONNECTED`; `message_buffer` is the
generic "Errorcode starting app: <code>" text with the numeric code, the same
format as for every other negative code; the text "Server doesn't support 4K"
is written to `stderr`; neither `LiStartConnection` nor `start_input_thread`
is called. -/
theorem C5_start_stream_4k (h : Headers) (i : Inputs) (m : Machine)
    (hst : m.state = STATE_START_STREAM) (hp : m.server.paired = true)
    (hok : i.applist_ret = h.GS_OK) (hid : 0 ≤ get_app_id_loop m.config.app i.applist)
    (hneg : h.GS_NOT_SUPPORTED_4K < 0) (hret : i.start_app_ret = h.GS_NOT_SUPPORTED_4K) :
    (step h i m).state = STATE_CONNECTED
    ∧ (step h i m).is_error = 1
    ∧ (step h i m).message_buffer
        = "Errorcode starting app: " ++ fmt_d h.GS_NOT_SUPPORTED_4K ++ "\n"
    ∧ Call.fprintf_stderr "Server doesn't support 4K\n" ∈ issued m (step h i m)
    ∧ Call.LiStartConnection ∉ issued m (step h i m)
    ∧ Call.start_input_thread ∉ issued m (step h i m) := by
  rw [step_start_stream h i m hst]
  obtain ⟨h1, h2, h3, h4, h5, h6⟩ :=
    start_stream_start_failed h i m hp hok hid (by rw [hret]; exact hneg)
  rw [hret] at h3
  exact ⟨h1, h2, h3, h6 hret, h5, h4⟩

/-- C5 (amended) at the sample data: the step returns to `STATE_CONNECTED`. -/
theorem C5_start_stream_4k_witness :
    (sample_machine STATE_START_STREAM).state = STATE_START_STREAM
    ∧ (sample_machine STATE_START_STREAM).server.paired = true
    ∧ sample_inputs_4k.applist_ret = sample_headers.GS_OK
    ∧ 0 ≤ get_app_id_loop (sample_machine STATE_START_STREAM).config.app
        sample_inputs_4k.applist
    ∧ sample_headers.GS_NOT_SUPPORTED_4K < 0
    ∧ sample_inputs_4k.start_app_ret = sample_headers.GS_NOT_SUPPORTED_4K
    ∧ (step sample_headers sample_inputs_4k (sample_machine STATE_START_STREAM)).state
        = STATE_CONNECTED :=
  ⟨rfl, rfl, by decide, by decide, by decide, by decide,
   (C5_start_stream_4k sample_headers sample_inputs_4k (sample_machine STATE_START_STREAM)
      rfl rfl (by decide) (by decide) (by decide) (by decide)).1⟩

/-! ## C8: the initial state -/

theorem create_client_keeps (h : Headers) (s : Startup) (m : Machine) :
    (create_client h s m).config = m.config
    ∧ (create_client h s m).selected_address = m.selected_address
    ∧ (create_client h s m).cur_address = m.cur_address
    ∧ ((create_client h s m).client ≠ none → (create_client h s m).state = m.state) := by
  by_cases h1 : s.gs_new_first = none <;> by_cases he : s.gs_error = h.GS_BAD_CONF <;>
    by_cases hc : s.gs_conf_init_ret = h.GS_OK <;> by_cases h2 : s.gs_new_second = none <;>
    simp [create_client, Machine.call, Machine.calls, h1, he, hc, h2]

/-- C8 as stated fails: with exactly one host address configured and the
client created, the state when the main loop starts is `STATE_CONNECTING`,
not `STATE_DISCONNECTED`. -/
theorem C8_initial_state_counterexample :
    (startup sample_headers sample_startup_one_host).client ≠ none
    ∧ index sample_startup_one_host.parsed.address 0 ≠ none
    ∧ sample_startup_one_host.parsed.addressCount = 1
    ∧ (startup sample_headers sample_startup_one_host).state = STATE_CONNECTING
    ∧ (startup sample_headers sample_startup_one_host).state ≠ STATE_DISCONNECTED := by
  refine ⟨?_, ?_, ?_, ?_, ?_⟩ <;> decide

/-- C8, amended: when the GameStream client is created, the state with which
the main loop starts is `STATE_INVALID` if `config.address[0]` is `NULL`;
otherwise it is `STATE_CONNECTING`, with `cur_address = config.address[0]`,
if `config.addressCount` is 1 (read after the optional per-host file), and
`STATE_DISCONNECTED` for every other count.  `selected_address` starts at 0. -/
theorem C8_initial_state (h : Headers) (s : Startup)
    (hclient : (startup h s).client ≠ none) :
    (startup h s).selected_address = 0
    ∧ (index s.parsed.address 0 = none → (startup h s).state = STATE_INVALID)
    ∧ (index s.parsed.address 0 ≠ none → (startup h s).config.addressCount = 1 →
        (startup h s).state = STATE_CONNECTING
        ∧ (startup h s).cur_address = index (startup h s).config.address 0)
    ∧ (index s.parsed.address 0 ≠ none → (startup h s).config.addressCount ≠ 1 →
        (startup h s).state = STATE_DISCONNECTED) := by
  obtain ⟨hcfg, hsel, hcur, hstate⟩ := create_client_keeps h s (select_initial_state h s)
  unfold startup at hclient ⊢
  rw [hcfg, hsel, hcur, hstate hclient]
  by_cases ha : index s.parsed.address 0 = none <;>
    by_cases hacc : s.access_ret = -1 <;>
    by_cases hd : h.DEBUG = true <;>
    by_cases hn : s.parsed.addressCount = 1 <;>
    by_cases hn2 : s.host_config.addressCount = 1 <;>
    simp [select_initial_state, boot, Machine.call, Machine.calls, ha, hacc, hd, hn, hn2]

/-- C8 (amended) at the sample data: three addresses start in
`STATE_DISCONNECTED`. -/
theorem C8_initial_state_witness :
    (startup sample_headers sample_startup).client ≠ none
    ∧ (startup sample_headers sample_startup).state = STATE_DISCONNECTED :=
  ⟨by decide,
   (C8_initial_state sample_headers sample_startup (by decide)).2.2.2 (by decide) (by decide)⟩

/-! ## C10: the selected host index -/

theorem down_index (sel n : Int) (h0 : 0 ≤ sel) (h1 : sel < n) (hn : n ≤ 2147483647) :
    wrap32 ((wrap32 (sel + 1)).tmod n) = (sel + 1) % n
    ∧ 0 ≤ (sel + 1) % n ∧ (sel + 1) % n < n := by
  have hw : wrap32 (sel + 1) = sel + 1 := wrap32_of_range _ (by omega) (by omega)
  have hmod : (sel + 1).tmod n = (sel + 1) % n := Int.tmod_eq_emod (by omega) (by omega)
  have hlo : 0 ≤ (sel + 1) % n := Int.emod_nonneg _ (by omega)
  have hhi : (sel + 1) % n < n := Int.emod_lt_of_pos _ (by omega)
  rw [hw, hmod, wrap32_of_range _ (by omega) (by omega)]
  exact ⟨rfl, hlo, hhi⟩

theorem up_index (sel n : Int) (h0 : 0 ≤ sel) (h1 : sel < n) (hn : n ≤ 2147483647) :
    (sel = 0 → wrap32 ((wrap32 (sel - 1)).tmod n) ≤ 0)
    ∧ (0 < sel → wrap32 ((wrap32 (sel - 1)).tmod n) = sel - 1) := by
  have hw : wrap32 (sel - 1) = sel - 1 := wrap32_of_range _ (by omega) (by omega)
  rw [hw]
  constructor
  · intro hz
    subst hz
    obtain ⟨k, hk⟩ := Int.eq_ofNat_of_zero_le (show 0 ≤ n by omega)
    subst hk
    have hneg : (0 - 1 : Int).tmod (k : Int) = -((1 % k : Nat) : Int) := rfl
    have hle : 1 % k ≤ 1 := Nat.mod_le 1 k
    rw [hneg, wrap32_of_range _ (by omega) (by omega)]
    omega
  · intro hpos
    have hmod : (sel - 1).tmod n = sel - 1 := Int.tmod_eq_of_lt (by omega) (by omega)
    rw [hmod, wrap32_of_range _ (by omega) (by omega)]

theorem stream_keeps (h : Headers) (i : Inputs) (m : Machine) :
    (stream h i m).2.config.addressCount = m.config.addressCount
    ∧ (stream h i m).2.config.address = m.config.address
    ∧ (stream h i m).2.selected_address = m.selected_address := by
  simp only [stream, get_app_id, Machine.call, Machine.calls]
  split_ifs <;> simp [sprintf_message_buffer_keeps]

theorem call_keeps (m : Machine) (c : Call) :
    (m.call c).config = m.config ∧ (m.call c).selected_address = m.selected_address :=
  ⟨rfl, rfl⟩

theorem calls_keeps (m : Machine) (cs : List Call) :
    (m.calls cs).config = m.config ∧ (m.calls cs).selected_address = m.selected_address :=
  ⟨rfl, rfl⟩

theorem case_disconnected_keeps (h : Headers) (i : Inputs) (m : Machine) :
    (case_disconnected h i m).config = m.config := by
  unfold case_disconnected
  dsimp only
  split_ifs <;> rfl

theorem connecting_failure_keeps (i : Inputs) (m : Machine) (log message : String)
    (getter : Bool) :
    (connecting_failure i m log message getter).config = m.config
    ∧ (connecting_failure i m log message getter).selected_address = m.selected_address := by
  cases getter <;> simp [connecting_failure, Machine.call, sprintf_message_buffer_keeps]

theorem case_connecting_keeps (h : Headers) (i : Inputs) (m : Machine) :
    (case_connecting h i m).config = m.config
    ∧ (case_connecting h i m).selected_address = m.selected_address := by
  simp only [case_connecting]
  split_ifs <;> simp [connecting_failure_keeps, Machine.call, Machine.calls]

theorem case_connected_keeps (h : Headers) (i : Inputs) (m : Machine) :
    (case_connected h i m).config = m.config
    ∧ (case_connected h i m).selected_address = m.selected_address := by
  simp only [case_connected, Machine.call, Machine.calls]
  split_ifs <;> simp

theorem case_pairing_keeps (h : Headers) (i : Inputs) (m : Machine) :
    (case_pairing h i m).config = m.config
    ∧ (case_pairing h i m).selected_address = m.selected_address := by
  by_cases hp : i.pair_ret = h.GS_OK <;>
    by_cases hg : i.pair_server.currentGame = 0 <;>
    simp [case_pairing, Machine.call, Machine.calls, sprintf_message_buffer_keeps, hp, hg]

theorem case_start_stream_keeps (h : Headers) (i : Inputs) (m : Machine) :
    (case_start_stream h i m).config.addressCount = m.config.addressCount
    ∧ (case_start_stream h i m).selected_address = m.selected_address := by
  by_cases hp : m.server.paired = true
  · simp only [case_start_stream, hp, if_true]
    split_ifs <;> simp [Machine.call, Machine.calls, stream_keeps]
  · simp [case_start_stream, hp, Machine.call, Machine.calls]

theorem case_stop_stream_keeps (i : Inputs) (m : Machine) :
    (case_stop_stream i m).config = m.config
    ∧ (case_stop_stream i m).selected_address = m.selected_address := by
  by_cases hq : m.config.quitappafter = true <;> by_cases hd : m.config.debug_level > 0 <;>
    simp [case_stop_stream, Machine.call, hq, hd]

theorem step_keeps_addressCount (h : Headers) (i : Inputs) (m : Machine) :
    (step h i m).config.addressCount = m.config.addressCount := by
  unfold step
  split
  · rfl
  · rw [case_disconnected_keeps]
  · rw [(case_connecting_keeps h i m).1]
  · rw [(case_connected_keeps h i m).1]
  · rw [(case_pairing_keeps h i m).1]
  · exact (case_start_stream_keeps h i m).1
  · rfl
  · rw [(case_stop_stream_keeps i m).1]

theorem step_keeps_selected_address (h : Headers) (i : Inputs) (m : Machine)
    (hst : m.state ≠ STATE_DISCONNECTED) :
    (step h i m).selected_address = m.selected_address := by
  unfold step
  split
  · rfl
  · next hd => exact absurd hd hst
  · exact (case_connecting_keeps h i m).2
  · exact (case_connected_keeps h i m).2
  · exact (case_pairing_keeps h i m).2
  · exact (case_start_stream_keeps h i m).2
  · rfl
  · exact (case_stop_stream_keeps i m).2

theorem case_disconnected_selected_address (h : Headers) (i : Inputs) (m : Machine) :
    (case_disconnected h i m).selected_address
      = (if i.btns &&& h.VPAD_BUTTON_A ≠ 0 then m.selected_address
         else if i.btns &&& h.VPAD_BUTTON_DOWN ≠ 0 then
           wrap32 ((wrap32 (m.selected_address + 1)).tmod m.config.addressCount)
         else if i.btns &&& h.VPAD_BUTTON_UP ≠ 0 then
           (if wrap32 ((wrap32 (m.selected_address - 1)).tmod m.config.addressCount) < 0 then 0
            else wrap32 ((wrap32 (m.selected_address - 1)).tmod m.config.addressCount))
         else m.selected_address) := by
  unfold case_disconnected
  dsimp only
  simp only [call_keeps, calls_keeps]
  split_ifs <;> rfl

theorem step_selected_address_range (h : Headers) (i : Inputs) (m : Machine)
    (hn : m.config.addressCount ≤ 2147483647)
    (h0 : 0 ≤ m.selected_address) (h1 : m.selected_address < m.config.addressCount) :
    0 ≤ (step h i m).selected_address
    ∧ (step h i m).selected_address < m.config.addressCount := by
  by_cases hst : m.state = STATE_DISCONNECTED
  · have hstep : step h i m = case_disconnected h i m := by
      unfold step
      rw [hst]
    rw [hstep, case_disconnected_selected_address]
    obtain ⟨hd, hdlo, hdhi⟩ := down_index _ _ h0 h1 hn
    obtain ⟨huz, hup⟩ := up_index _ _ h0 h1 hn
    split_ifs with hA hD hU hneg
    · exact ⟨h0, h1⟩
    · rw [hd]
      exact ⟨hdlo, hdhi⟩
    · omega
    · by_cases hz : m.selected_address = 0
      · have hle := huz hz
        omega
      · rw [hup (by omega)]
        omega
    · exact ⟨h0, h1⟩
  · rw [step_keeps_selected_address h i m hst]
    exact ⟨h0, h1⟩

theorem loop_iteration_invariant (h : Headers) (i : Inputs) (m : Machine)
    (hn : m.config.addressCount ≤ 2147483647)
    (h0 : 0 ≤ m.selected_address) (h1 : m.selected_address < m.config.addressCount) :
    (loop_iteration h i m).config.addressCount = m.config.addressCount
    ∧ 0 ≤ (loop_iteration h i m).selected_address
    ∧ (loop_iteration h i m).selected_address < m.config.addressCount := by
  unfold loop_iteration
  cases hasync : i.async_state with
  | none =>
    exact ⟨step_keeps_addressCount h i _, step_selected_address_range h i _ hn h0 h1⟩
  | some st =>
    exact ⟨step_keeps_addressCount h i _, step_selected_address_range h i _ hn h0 h1⟩

theorem run_invariant (h : Headers) (inputs : List Inputs) (m : Machine)
    (hn : m.config.addressCount ≤ 2147483647)
    (h0 : 0 ≤ m.selected_address) (h1 : m.selected_address < m.config.addressCount) :
    (run h inputs m).config.addressCount = m.config.addressCount
    ∧ 0 ≤ (run h inputs m).selected_address
    ∧ (run h inputs m).selected_address < m.config.addressCount := by
  induction inputs generalizing m with
  | nil => exact ⟨rfl, h0, h1⟩
  | cons i rest ih =>
    obtain ⟨hc, hlo, hhi⟩ := loop_iteration_invariant h i m hn h0 h1
    have hrest := ih (loop_iteration h i m) (by rw [hc]; exact hn) hlo (by rw [hc]; exact hhi)
    rw [hc] at hrest
    exact hrest

theorem startup_selected_address (h : Headers) (s : Startup) :
    (startup h s).selected_address = 0 := by
  unfold startup
  rw [(create_client_keeps h s _).2.1]
  by_cases ha : index s.parsed.address 0 = none <;>
    by_cases hacc : s.access_ret = -1 <;>
    by_cases hd : h.DEBUG = true <;>
    by_cases hn : s.parsed.addressCount = 1 <;>
    by_cases hn2 : s.host_config.addressCount = 1 <;>
    simp [select_initial_state, boot, Machine.call, Machine.calls, ha, hacc, hd, hn, hn2]

theorem step_disconnected (h : Headers) (i : Inputs) (m : Machine)
    (hst : m.state = STATE_DISCONNECTED) : step h i m = case_disconnected h i m := by
  unfold step
  rw [hst]

theorem case_disconnected_confirm (h : Headers) (i : Inputs) (m : Machine)
    (hA : i.btns &&& h.VPAD_BUTTON_A ≠ 0) :
    (case_disconnected h i m).state = STATE_CONNECTING
    ∧ (case_disconnected h i m).cur_address = index m.config.address m.selected_address := by
  simp [case_disconnected, Machine.call, Machine.calls, hA]

/-- C10: let `m` be the machine after any number of loop iterations from
start-up, with any inputs, where `config.addressCount` is an `int` that is at
least 1.  Then `0 <= selected_address < addressCount`.  In
`STATE_DISCONNECTED` with A not pressed, Down sets the index to
`(selected_address + 1) mod addressCount`, which takes the last entry to 0; Up
(with Down not pressed) at index 0 leaves it 0, and at a positive index
decrements it; A selects `config.address[selected_address]` and leaves the
index as it is. -/
theorem C10_selected_address (h : Headers) (s : Startup) (inputs : List Inputs) (i : Inputs)
    (hcount : 1 ≤ (startup h s).config.addressCount)
    (hint : (startup h s).config.addressCount ≤ 2147483647) :
    let m := run h inputs (startup h s)
    m.config.addressCount = (startup h s).config.addressCount
    ∧ 0 ≤ m.selected_address ∧ m.selected_address < m.config.addressCount
    ∧ (m.state = STATE_DISCONNECTED → i.btns &&& h.VPAD_BUTTON_A = 0 →
        i.btns &&& h.VPAD_BUTTON_DOWN ≠ 0 →
        (step h i m).selected_address = (m.selected_address + 1) % m.config.addressCount
        ∧ (m.selected_address = m.config.addressCount - 1 → (step h i m).selected_address = 0))
    ∧ (m.state = STATE_DISCONNECTED → i.btns &&& h.VPAD_BUTTON_A = 0 →
        i.btns &&& h.VPAD_BUTTON_DOWN = 0 → i.btns &&& h.VPAD_BUTTON_UP ≠ 0 →
        (m.selected_address = 0 → (step h i m).selected_address = 0)
        ∧ (0 < m.selected_address →
            (step h i m).selected_address = m.selected_address - 1))
    ∧ (m.state = STATE_DISCONNECTED → i.btns &&& h.VPAD_BUTTON_A ≠ 0 →
        (step h i m).state = STATE_CONNECTING
        ∧ (step h i m).cur_address = index m.config.address m.selected_address
        ∧ (step h i m).selected_address = m.selected_address) := by
  intro m
  have hinv := run_invariant h inputs (startup h s) hint
    (by rw [startup_selected_address]) (by rw [startup_selected_address]; omega)
  have hc : m.config.addressCount = (startup h s).config.addressCount := hinv.1
  have h0 : 0 ≤ m.selected_address := hinv.2.1
  have h1 : m.selected_address < (startup h s).config.addressCount := hinv.2.2
  clear hinv
  clear_value m
  have h1m : m.selected_address < m.config.addressCount := by rw [hc]; exact h1
  have hn : m.config.addressCount ≤ 2147483647 := by rw [hc]; exact hint
  obtain ⟨hd, _, _⟩ := down_index _ _ h0 h1m hn
  obtain ⟨huz, hup⟩ := up_index _ _ h0 h1m hn
  refine ⟨hc, h0, h1m, ?_, ?_, ?_⟩
  · intro hst hA hD
    rw [step_disconnected h i m hst, case_disconnected_selected_address,
      if_neg (not_not.mpr hA), if_pos hD, hd]
    refine ⟨rfl, ?_⟩
    intro hlast
    have hself : m.selected_address + 1 = m.config.addressCount := by omega
    rw [hself, Int.emod_self]
  · intro hst hA hD hU
    rw [step_disconnected h i m hst, case_disconnected_selected_address,
      if_neg (not_not.mpr hA), if_neg (not_not.mpr hD), if_pos hU]
    constructor
    · intro hz
      have hle := huz hz
      by_cases hneg :
          wrap32 ((wrap32 (m.selected_address - 1)).tmod m.config.addressCount) < 0
      · rw [if_pos hneg]
      · rw [if_neg hneg]
        omega
    · intro hpos
      rw [hup hpos, if_neg (by omega)]
  · intro hst hA
    rw [step_disconnected h i m hst, case_disconnected_selected_address, if_pos hA]
    obtain ⟨hs1, hs2⟩ := case_disconnected_confirm h i m hA
    exact ⟨hs1, hs2, rfl⟩

/-- C10 at the sample data (three hosts): three Down presses return to index
0, and an Up press at index 0 stays at 0. -/
theorem C10_selected_address_witness :
    1 ≤ (startup sample_headers sample_startup).config.addressCount
    ∧ (startup sample_headers sample_startup).config.addressCount ≤ 2147483647
    ∧ (run sample_headers [sample_inputs_down, sample_inputs_down]
        (startup sample_headers sample_startup)).selected_address = 2
    ∧ (run sample_headers [sample_inputs_down, sample_inputs_down, sample_inputs_down]
        (startup sample_headers sample_startup)).selected_address = 0
    ∧ (run sample_headers [sample_inputs_up]
        (startup sample_headers sample_startup)).selected_address = 0
    ∧ (run sample_headers [sample_inputs_down, sample_inputs_up, sample_inputs_up]
        (startup sample_headers sample_startup)).selected_address
        < (run sample_headers [sample_inputs_down, sample_inputs_up, sample_inputs_up]
            (startup sample_headers sample_startup)).config.addressCount :=
  ⟨by decide, by decide, by decide, by decide, by decide,
   (C10_selected_address sample_headers sample_startup
      [sample_inputs_down, sample_inputs_up, sample_inputs_up] sample_inputs
      (by decide) (by decide)).2.2.1⟩

end Moonlight
